import Mathlib

/-!
Shallow embedding of `src/parse_argp.c` from the sched-analyzer repository:
the argp-based command-line configuration layer.

The C global `struct sa_opts sa_opts` becomes the Lean structure `SaOpts`
together with the default instance `sa_opts` (the designated initializer).
The argp callback `parse_arg(key, arg, state)` becomes a pure function from
an option key, its textual argument and the current configuration to a
`ParseOutcome` that carries the (possibly mutated) configuration.  The libc
routines the parser relies on are modelled explicitly: `strtol` with base 0
(whitespace skipping, optional sign, hex/octal/decimal base detection,
`ERANGE` clamping, and the `end_ptr == arg` "no digits" condition) and
`strncpy` on a fixed-size character buffer.
-/

set_option maxRecDepth 4000

/-- C `isspace` in the default locale: space, tab, newline, vertical tab,
form feed, carriage return. -/
def isCSpace (c : Char) : Bool :=
  c = ' ' || c = '\t' || c = '\n' || c.toNat = 11 || c.toNat = 12 || c.toNat = 13

/-- Drop the leading run of `isspace` characters, as `strtol` does. -/
def skipSpacesL : List Char → List Char
  | [] => []
  | c :: cs => if isCSpace c then skipSpacesL cs else c :: cs

/-- Numeric value of a character seen as a digit in bases up to 16,
written over the ASCII codes: 48–57 are `0`–`9`, 97–102 are `a`–`f`
(value code − 87), 65–70 are `A`–`F` (value code − 55). -/
def digitVal16 (c : Char) : Option Nat :=
  let n := c.toNat
  if 48 ≤ n ∧ n ≤ 57 then some (n - 48)
  else if 97 ≤ n ∧ n ≤ 102 then some (n - 87)
  else if 65 ≤ n ∧ n ≤ 70 then some (n - 55)
  else none

/-- The longest leading run of characters that are digits valid in `base`,
as their numeric values. -/
def takeDigits (base : Nat) : List Char → List Nat
  | [] => []
  | c :: cs =>
    match digitVal16 c with
    | some d => if d < base then d :: takeDigits base cs else []
    | none => []

/-- `LONG_MAX` on an LP64 platform (`strtol` clamps to the `long` range). -/
def LONG_MAX : Int := 9223372036854775807

/-- `LONG_MIN` on an LP64 platform. -/
def LONG_MIN : Int := -9223372036854775808

/-- The `errno` value `strtol` sets on out-of-range input. -/
def ERANGE : Nat := 34

/-- Result of a modelled `strtol` call: the returned `long` value, the
`errno` it leaves (the caller zeroed `errno` beforehand), and whether at
least one digit was consumed (`digits = false` models `end_ptr == arg`). -/
structure StrtolResult where
  value : Int
  errno : Nat
  digits : Bool
  deriving Repr, DecidableEq

/-- Optional sign handling of `strtol`: strip one leading `+` or `-`,
remembering whether the result is negated. -/
def splitSign : List Char → Bool × List Char
  | '-' :: rest => (true, rest)
  | '+' :: rest => (false, rest)
  | cs => (false, cs)

/-- Base detection of `strtol` when called with base 0: a `0x`/`0X` head
followed by a hexadecimal digit selects base 16 (consuming the head), any
other string starting with `0` selects base 8 (the `0` itself is a digit),
anything else selects base 10. -/
def detectBase0 : List Char → Nat × List Char
  | '0' :: x :: rest =>
    if (x = 'x' || x = 'X') && (match rest with
        | r :: _ => (digitVal16 r).isSome
        | [] => false) then (16, rest)
    else (8, '0' :: x :: rest)
  | cs => (10, cs)

/-- Range behaviour of `strtol`: a value outside the `long` range is
clamped to `LONG_MAX`/`LONG_MIN` with `errno` set to `ERANGE`; otherwise
it is returned as is with `errno` untouched (0 here, since the caller
cleared it). -/
def clampLong (v : Int) : Int × Nat :=
  if LONG_MAX < v then (LONG_MAX, ERANGE)
  else if v < LONG_MIN then (LONG_MIN, ERANGE)
  else (v, 0)

/-- Digit accumulation of `strtol`: if no digit is valid, return 0 with
`end_ptr == arg` (`digits = false`); otherwise fold the digits and clamp
the signed result into the `long` range. -/
def strtolCore (neg : Bool) (base : Nat) (cs : List Char) : StrtolResult :=
  let ds := takeDigits base cs
  if ds.isEmpty then { value := 0, errno := 0, digits := false }
  else
    let mag : Nat := ds.foldl (fun a d => a * base + d) 0
    let v : Int := if neg then -(mag : Int) else (mag : Int)
    { value := (clampLong v).1, errno := (clampLong v).2, digits := true }

/-- `strtol(s, &end_ptr, 0)` with `errno` cleared beforehand, as both
numeric options of `parse_arg` call it. -/
def strtol0 (s : List Char) : StrtolResult :=
  let cs := skipSpacesL s
  let p := splitSign cs
  let q := detectBase0 p.2
  strtolCore p.1 q.1 q.2

/-- `strncpy(dst, src, n)` on a buffer viewed as a character list: exactly
`n` characters are written — the first `min n (length src)` characters of
`src` followed by zero padding — and the characters of `dst` past index
`n - 1` are untouched. -/
def strncpyL (dst src : List Char) (n : Nat) : List Char :=
  (src.take n ++ List.replicate (n - src.length) (Char.ofNat 0)) ++ dst.drop n

/-- Modelled from the spec: `TASK_COMM_LEN` is declared in `parse_argp.h`,
which is not under `src/`.  The spec calls it the task-name length limit;
on Linux that limit is 16 bytes. -/
def TASK_COMM_LEN : Nat := 16

/-- The configuration record `struct sa_opts`.  The struct declaration
lives in `parse_argp.h` (not under `src/`); its fields are reconstructed
from the designated initializer and the field uses in `parse_argp.c`.
Numeric fields carry the C `long` value the parser computes, as unbounded
integers (C signed overflow is undefined behaviour, so no wrapping is
modelled); `comm` is a fixed `TASK_COMM_LEN`-character buffer with
explicit NUL characters. -/
structure SaOpts where
  system : Bool
  app : Bool
  output : String
  output_path : Option String
  max_size : Int
  util_avg_cpu : Bool
  util_avg_task : Bool
  util_avg_rt : Bool
  util_avg_dl : Bool
  util_avg_irq : Bool
  util_avg_thermal : Bool
  util_est_cpu : Bool
  util_est_task : Bool
  cpu_nr_running : Bool
  cpu_freq : Bool
  cpu_idle : Bool
  softirq : Bool
  sched_switch : Bool
  load_balance : Bool
  load_avg_cpu : Bool
  load_avg_task : Bool
  runnable_avg_cpu : Bool
  runnable_avg_task : Bool
  pid : Int
  comm : List Char
  deriving Repr, DecidableEq

/-- The default configuration: the designated initializer of the global
`sa_opts` in `parse_argp.c`.  The fields the initializer does not name
(`load_avg_cpu`, `load_avg_task`, `runnable_avg_cpu`, `runnable_avg_task`)
are zero-initialized by C semantics, hence `false`. -/
def sa_opts : SaOpts where
  system := true
  app := false
  output := "sched-analyzer.perfetto-trace"
  output_path := none
  max_size := 250 * 1024 * 1024
  util_avg_cpu := false
  util_avg_task := false
  util_avg_rt := false
  util_avg_dl := false
  util_avg_irq := false
  util_avg_thermal := false
  util_est_cpu := false
  util_est_task := false
  cpu_nr_running := false
  cpu_freq := false
  cpu_idle := false
  softirq := false
  sched_switch := false
  load_balance := false
  load_avg_cpu := false
  load_avg_task := false
  runnable_avg_cpu := false
  runnable_avg_task := false
  pid := 0
  comm := List.replicate TASK_COMM_LEN (Char.ofNat 0)

/-- The option keys `enum sa_opts_flags`, plus the argp special keys the
callback handles (`ARGP_KEY_ARG`, `ARGP_KEY_END`) and a catch-all for any
other key, which the `default:` branch answers with `ARGP_ERR_UNKNOWN`. -/
inductive SaKey where
  | OPT_SYSTEM
  | OPT_APP
  | OPT_OUTPUT
  | OPT_OUTPUT_PATH
  | OPT_MAX_SIZE
  | OPT_LOAD_AVG
  | OPT_RUNNABLE_AVG
  | OPT_UTIL_AVG
  | OPT_LOAD_AVG_CPU
  | OPT_RUNNABLE_AVG_CPU
  | OPT_UTIL_AVG_CPU
  | OPT_LOAD_AVG_TASK
  | OPT_RUNNABLE_AVG_TASK
  | OPT_UTIL_AVG_TASK
  | OPT_UTIL_AVG_RT
  | OPT_UTIL_AVG_DL
  | OPT_UTIL_AVG_IRQ
  | OPT_UTIL_AVG_THERMAL
  | OPT_UTIL_EST
  | OPT_UTIL_EST_CPU
  | OPT_UTIL_EST_TASK
  | OPT_CPU_NR_RUNNING
  | OPT_LOAD_BALANCE
  | OPT_FILTER_PID
  | OPT_FILTER_COMM
  | ARGP_KEY_ARG
  | ARGP_KEY_END
  | ARGP_KEY_OTHER (k : Nat)
  deriving Repr, DecidableEq

/-- Outcome of one `parse_arg` invocation.  `ok` models `return 0`;
`err` models `return errno` after `perror(msg)`; `usage` models the
`argp_usage(state)` path, which prints `msg` to stderr beforehand (when
the callback printed one) and terminates the process with a usage error,
making the `return -EINVAL` after it unreachable; `errUnknown` models
`return ARGP_ERR_UNKNOWN`.  Every outcome carries the state of the global
configuration after the invocation, since the C code mutates `sa_opts` in
place before some of its error checks. -/
inductive ParseOutcome where
  | ok (o : SaOpts)
  | err (code : Nat) (msg : String) (o : SaOpts)
  | usage (msg : String) (o : SaOpts)
  | errUnknown (o : SaOpts)
  deriving Repr, DecidableEq

/-- The configuration carried by an outcome. -/
def ParseOutcome.opts : ParseOutcome → SaOpts
  | .ok o => o
  | .err _ _ o => o
  | .usage _ o => o
  | .errUnknown o => o

/-- The stderr message the callback printed on the way to an outcome. -/
def ParseOutcome.msg : ParseOutcome → String
  | .ok _ => ""
  | .err _ m _ => m
  | .usage m _ => m
  | .errUnknown _ => ""

/-- The argp callback `parse_arg` of `parse_argp.c`, as a pure function on
the configuration.  Options declared without an argument ignore `arg`.
For `OPT_MAX_SIZE` and `OPT_FILTER_PID` the assignment into the global
happens before the `errno` and `end_ptr` checks, exactly as in the C code,
so the carried configuration is mutated even on the failure paths. -/
def parse_arg (key : SaKey) (arg : String) (o : SaOpts) : ParseOutcome :=
  match key with
  | .OPT_SYSTEM => .ok { o with system := true, app := false }
  | .OPT_APP => .ok { o with system := false, app := true }
  | .OPT_OUTPUT => .ok { o with output := arg }
  | .OPT_OUTPUT_PATH => .ok { o with output_path := some arg }
  | .OPT_MAX_SIZE =>
    let r := strtol0 arg.toList
    let o' := { o with max_size := r.value * 1024 }
    if r.errno ≠ 0 then .err r.errno "Unsupported max_size value\n" o'
    else if r.digits = false then .usage "max_size: no digits were found\n" o'
    else .ok o'
  | .OPT_LOAD_AVG => .ok { o with load_avg_cpu := true, load_avg_task := true }
  | .OPT_RUNNABLE_AVG => .ok { o with load_avg_cpu := true, runnable_avg_task := true }
  | .OPT_UTIL_AVG =>
    .ok { o with
          util_avg_cpu := true
          util_avg_task := true
          util_avg_rt := true
          util_avg_dl := true
          util_avg_irq := true
          util_avg_thermal := true }
  | .OPT_LOAD_AVG_CPU => .ok { o with load_avg_cpu := true }
  | .OPT_RUNNABLE_AVG_CPU => .ok { o with runnable_avg_cpu := true }
  | .OPT_UTIL_AVG_CPU => .ok { o with util_avg_cpu := true }
  | .OPT_LOAD_AVG_TASK => .ok { o with load_avg_task := true }
  | .OPT_RUNNABLE_AVG_TASK => .ok { o with runnable_avg_task := true }
  | .OPT_UTIL_AVG_TASK => .ok { o with util_avg_task := true }
  | .OPT_UTIL_AVG_RT => .ok { o with util_avg_rt := true }
  | .OPT_UTIL_AVG_DL => .ok { o with util_avg_dl := true }
  | .OPT_UTIL_AVG_IRQ => .ok { o with util_avg_irq := true }
  | .OPT_UTIL_AVG_THERMAL => .ok { o with util_avg_thermal := true }
  | .OPT_UTIL_EST => .ok { o with util_est_cpu := true, util_est_task := true }
  | .OPT_UTIL_EST_CPU => .ok { o with util_est_cpu := true }
  | .OPT_UTIL_EST_TASK => .ok { o with util_est_task := true }
  | .OPT_CPU_NR_RUNNING => .ok { o with cpu_nr_running := true }
  | .OPT_LOAD_BALANCE => .ok { o with load_balance := true }
  | .OPT_FILTER_PID =>
    let r := strtol0 arg.toList
    let o' := { o with pid := r.value }
    if r.errno ≠ 0 then .err r.errno "Unsupported pid value\n" o'
    else if r.digits = false then .usage "pid: no digits were found\n" o'
    else .ok o'
  | .OPT_FILTER_COMM =>
    .ok { o with
          comm := (strncpyL o.comm arg.toList (TASK_COMM_LEN - 1)).set
            (TASK_COMM_LEN - 1) (Char.ofNat 0) }
  | .ARGP_KEY_ARG => .usage "" o
  | .ARGP_KEY_END => .ok o
  | .ARGP_KEY_OTHER _ => .errUnknown o

/-- The argp driver loop (`argp_parse` is glibc library code): it feeds
each recognized token's key and argument to `parse_arg` from left to
right, stops at the first invocation that does not return 0, and delivers
`ARGP_KEY_END` once the input is exhausted.  The informational special
keys argp also sends (`ARGP_KEY_INIT`, `ARGP_KEY_FINI`, ...) fall into the
callback's `default:` branch, whose `ARGP_ERR_UNKNOWN` answer argp treats
as "not handled" and which leaves the configuration untouched, so they are
omitted from the model. -/
def parseSeq (toks : List (SaKey × String)) (o : SaOpts) : ParseOutcome :=
  match toks with
  | [] => parse_arg .ARGP_KEY_END "" o
  | (k, a) :: rest =>
    match parse_arg k a o with
    | .ok o' => parseSeq rest o'
    | e => e

/-- Does the needle occur at the head of `hay`, character by character? -/
def leadsWith : List Char → List Char → Bool
  | [], _ => true
  | n :: ns, hay =>
    match hay with
    | [] => false
    | b :: bs => n = b && leadsWith ns bs

/-- Does `needle` occur contiguously anywhere inside `hay`? -/
def occursIn (needle : List Char) (hay : List Char) : Bool :=
  match hay with
  | [] => leadsWith needle []
  | _ :: cs => leadsWith needle hay || occursIn needle cs

/-- Pointwise ordering on the event-toggle fields that the option catalog
can set: `togglesLe o o'` says no toggle that is on in `o` is off in
`o'`. -/
def togglesLe (o o' : SaOpts) : Prop :=
  (o.load_avg_cpu = true → o'.load_avg_cpu = true) ∧
  (o.load_avg_task = true → o'.load_avg_task = true) ∧
  (o.runnable_avg_cpu = true → o'.runnable_avg_cpu = true) ∧
  (o.runnable_avg_task = true → o'.runnable_avg_task = true) ∧
  (o.util_avg_cpu = true → o'.util_avg_cpu = true) ∧
  (o.util_avg_task = true → o'.util_avg_task = true) ∧
  (o.util_avg_rt = true → o'.util_avg_rt = true) ∧
  (o.util_avg_dl = true → o'.util_avg_dl = true) ∧
  (o.util_avg_irq = true → o'.util_avg_irq = true) ∧
  (o.util_avg_thermal = true → o'.util_avg_thermal = true) ∧
  (o.util_est_cpu = true → o'.util_est_cpu = true) ∧
  (o.util_est_task = true → o'.util_est_task = true) ∧
  (o.cpu_nr_running = true → o'.cpu_nr_running = true) ∧
  (o.load_balance = true → o'.load_balance = true)

instance (o o' : SaOpts) : Decidable (togglesLe o o') := by
  unfold togglesLe; infer_instance

/-! ## Helper lemmas -/

/-- When `strtolCore` consumes no digit it returns exactly the
zero/no-error/no-digits result. -/
theorem strtolCore_eq_of_nodigits (neg : Bool) (base : Nat) (cs : List Char)
    (h : (strtolCore neg base cs).digits = false) :
    strtolCore neg base cs = { value := 0, errno := 0, digits := false } := by
  cases hds : takeDigits base cs with
  | nil => simp [strtolCore, hds]
  | cons d ds => simp [strtolCore, hds] at h

/-- When `strtol0` consumes no digit it returns exactly the
zero/no-error/no-digits result (`end_ptr == arg` and `errno == 0`). -/
theorem strtol0_eq_of_nodigits (s : List Char) (h : (strtol0 s).digits = false) :
    strtol0 s = { value := 0, errno := 0, digits := false } :=
  strtolCore_eq_of_nodigits _ _ _ h

/-- `OPT_MAX_SIZE` on an argument with no consumable digits: the global
gets `max_size := 0` (strtol returns 0) and the callback takes the
`argp_usage` path with the option-naming message. -/
theorem max_size_nodigits_aux (s : String) (o : SaOpts)
    (hd : (strtol0 s.toList).digits = false) :
    parse_arg .OPT_MAX_SIZE s o =
      .usage "max_size: no digits were found\n" { o with max_size := 0 } := by
  have h0 : strtol0 s.data = { value := 0, errno := 0, digits := false } :=
    strtol0_eq_of_nodigits _ hd
  simp [parse_arg, h0]

/-- `OPT_FILTER_PID` on an argument with no consumable digits: the global
gets `pid := 0` and the callback takes the `argp_usage` path with the
option-naming message. -/
theorem pid_nodigits_aux (s : String) (o : SaOpts)
    (hd : (strtol0 s.toList).digits = false) :
    parse_arg .OPT_FILTER_PID s o =
      .usage "pid: no digits were found\n" { o with pid := 0 } := by
  have h0 : strtol0 s.data = { value := 0, errno := 0, digits := false } :=
    strtol0_eq_of_nodigits _ hd
  simp [parse_arg, h0]

/-- `OPT_MAX_SIZE` on an argument whose digits are consumed without
`ERANGE`: the parse succeeds and stores the parsed value times 1024. -/
theorem max_size_ok_aux (s : String) (o : SaOpts)
    (hd : (strtol0 s.toList).digits = true) (he : (strtol0 s.toList).errno = 0) :
    parse_arg .OPT_MAX_SIZE s o =
      .ok { o with max_size := (strtol0 s.toList).value * 1024 } := by
  have hd' : (strtol0 s.data).digits = true := hd
  have he' : (strtol0 s.data).errno = 0 := he
  simp [parse_arg, hd', he']

/-- Setting the element just past a front list mutates the tail. -/
theorem set_append_length (l1 l2 : List Char) (c : Char) :
    (l1 ++ l2).set l1.length c = l1 ++ l2.set 0 c := by
  induction l1 with
  | nil => rfl
  | cons a as ih => simp [List.set, ih]

/-- One successful `parse_arg` step keeps exactly one mode flag set. -/
theorem parse_arg_ok_mode (k : SaKey) (a : String) (o o' : SaOpts)
    (hm : o.system = !o.app) (h : parse_arg k a o = .ok o') :
    o'.system = !o'.app := by
  cases k <;> simp only [parse_arg] at h <;>
    (try split at h) <;> (try split at h) <;>
    first
    | (injection h with h; subst h; first | exact hm | simp)
    | simp_all

/-- Along any successful `parseSeq` run the mode invariant is preserved. -/
theorem parseSeq_mode_aux (toks : List (SaKey × String)) :
    ∀ o o' : SaOpts, o.system = !o.app → parseSeq toks o = .ok o' →
      o'.system = !o'.app := by
  induction toks with
  | nil =>
    intro o o' hm h
    simp only [parseSeq, parse_arg] at h
    injection h with h
    subst h
    exact hm
  | cons t rest ih =>
    intro o o' hm h
    obtain ⟨k, a⟩ := t
    simp only [parseSeq] at h
    cases hpa : parse_arg k a o with
    | ok o2 =>
      rw [hpa] at h
      exact ih o2 o' (parse_arg_ok_mode k a o o2 hm hpa) h
    | err c m o2 => rw [hpa] at h; exact absurd h (by simp)
    | usage m o2 => rw [hpa] at h; exact absurd h (by simp)
    | errUnknown o2 => rw [hpa] at h; exact absurd h (by simp)

/-- `togglesLe` is reflexive. -/
theorem togglesLe_refl (o : SaOpts) : togglesLe o o := by
  unfold togglesLe
  exact ⟨id, id, id, id, id, id, id, id, id, id, id, id, id, id⟩

/-- `togglesLe` is transitive. -/
theorem togglesLe_trans (a b c : SaOpts)
    (h1 : togglesLe a b) (h2 : togglesLe b c) : togglesLe a c := by
  unfold togglesLe at h1 h2 ⊢
  obtain ⟨p1, p2, p3, p4, p5, p6, p7, p8, p9, p10, p11, p12, p13, p14⟩ := h1
  obtain ⟨q1, q2, q3, q4, q5, q6, q7, q8, q9, q10, q11, q12, q13, q14⟩ := h2
  exact ⟨fun h => q1 (p1 h), fun h => q2 (p2 h), fun h => q3 (p3 h),
    fun h => q4 (p4 h), fun h => q5 (p5 h), fun h => q6 (p6 h),
    fun h => q7 (p7 h), fun h => q8 (p8 h), fun h => q9 (p9 h),
    fun h => q10 (p10 h), fun h => q11 (p11 h), fun h => q12 (p12 h),
    fun h => q13 (p13 h), fun h => q14 (p14 h)⟩

/-- No single successful `parse_arg` step clears an event toggle. -/
theorem parse_arg_ok_toggles (k : SaKey) (a : String) (o o' : SaOpts)
    (h : parse_arg k a o = .ok o') : togglesLe o o' := by
  cases k <;> simp only [parse_arg] at h <;>
    (try split at h) <;> (try split at h) <;>
    first
    | (injection h with h; subst h; unfold togglesLe; simp_all)
    | simp_all

/-- No successful `parseSeq` run clears an event toggle. -/
theorem parseSeq_toggles_aux (toks : List (SaKey × String)) :
    ∀ o o' : SaOpts, parseSeq toks o = .ok o' → togglesLe o o' := by
  induction toks with
  | nil =>
    intro o o' h
    simp only [parseSeq, parse_arg] at h
    injection h with h
    subst h
    exact togglesLe_refl o
  | cons t rest ih =>
    intro o o' h
    obtain ⟨k, a⟩ := t
    simp only [parseSeq] at h
    cases hpa : parse_arg k a o with
    | ok o2 =>
      rw [hpa] at h
      exact togglesLe_trans o o2 o' (parse_arg_ok_toggles k a o o2 hpa) (ih o2 o' h)
    | err c m o2 => rw [hpa] at h; exact absurd h (by simp)
    | usage m o2 => rw [hpa] at h; exact absurd h (by simp)
    | errUnknown o2 => rw [hpa] at h; exact absurd h (by simp)

/-- Helper for the `comm` claim: setting the element at an index equal to
the length of the front list mutates the head of the tail list. -/
theorem set_append_length_of_eq (l1 l2 : List Char) (c : Char) (n : Nat)
    (hn : n = l1.length) : (l1 ++ l2).set n c = l1 ++ l2.set 0 c := by
  subst hn; exact set_append_length l1 l2 c

/-! ## Claim theorems -/

/-- Claim C1: for the empty argument list, parsing returns a configuration
equal to the documented defaults — system-wide mode true, app mode false,
output filename "sched-analyzer.perfetto-trace", output path unset,
max_size of 250 MiB in bytes, every event toggle false, pid 0, and an
empty (all-NUL) comm buffer. -/
theorem default_config_empty_args :
    parseSeq [] sa_opts = .ok sa_opts ∧
    sa_opts.system = true ∧ sa_opts.app = false ∧
    sa_opts.output = "sched-analyzer.perfetto-trace" ∧
    sa_opts.output_path = none ∧
    sa_opts.max_size = 250 * 1024 * 1024 ∧
    sa_opts.util_avg_cpu = false ∧ sa_opts.util_avg_task = false ∧
    sa_opts.util_avg_rt = false ∧ sa_opts.util_avg_dl = false ∧
    sa_opts.util_avg_irq = false ∧ sa_opts.util_avg_thermal = false ∧
    sa_opts.util_est_cpu = false ∧ sa_opts.util_est_task = false ∧
    sa_opts.cpu_nr_running = false ∧ sa_opts.cpu_freq = false ∧
    sa_opts.cpu_idle = false ∧ sa_opts.softirq = false ∧
    sa_opts.sched_switch = false ∧ sa_opts.load_balance = false ∧
    sa_opts.load_avg_cpu = false ∧ sa_opts.load_avg_task = false ∧
    sa_opts.runnable_avg_cpu = false ∧ sa_opts.runnable_avg_task = false ∧
    sa_opts.pid = 0 ∧ sa_opts.comm = List.replicate TASK_COMM_LEN (Char.ofNat 0) :=
  ⟨rfl, rfl, rfl, rfl, rfl, rfl, rfl, rfl, rfl, rfl, rfl, rfl, rfl,
   rfl, rfl, rfl, rfl, rfl, rfl, rfl, rfl, rfl, rfl, rfl, rfl, rfl⟩

/-- Claim C2: for every sequence of options, any configuration a
successful parse produces has exactly one of the two mode flags true and
the other false, regardless of the order in which `--system` and `--app`
appear. -/
theorem mode_flags_mutually_exclusive (toks : List (SaKey × String)) (o' : SaOpts)
    (h : parseSeq toks sa_opts = .ok o') :
    (o'.system = true ∧ o'.app = false) ∨ (o'.system = false ∧ o'.app = true) := by
  have hm := parseSeq_mode_aux toks sa_opts o' rfl h
  cases happ : o'.app
  · exact Or.inl ⟨by simp [hm, happ], rfl⟩
  · exact Or.inr ⟨by simp [hm, happ], rfl⟩

/-- Witness for C2: `--system` followed by `--app` parses successfully and
ends with exactly the app flag set. -/
theorem mode_flags_mutually_exclusive_witness :
    parseSeq [(.OPT_SYSTEM, ""), (.OPT_APP, "")] sa_opts =
      .ok { sa_opts with system := false, app := true } ∧
    ((({ sa_opts with system := false, app := true } : SaOpts).system = true ∧
        ({ sa_opts with system := false, app := true } : SaOpts).app = false) ∨
      (({ sa_opts with system := false, app := true } : SaOpts).system = false ∧
        ({ sa_opts with system := false, app := true } : SaOpts).app = true)) :=
  ⟨by decide,
   mode_flags_mutually_exclusive [(.OPT_SYSTEM, ""), (.OPT_APP, "")]
     { sa_opts with system := false, app := true } (by decide)⟩

/-- Claim C3: from any prior configuration, `--util_avg` sets the six
utilization-average fields true and leaves every other field unchanged
(the record update touches exactly those six fields). -/
theorem util_avg_umbrella_sets_six (a : String) (o : SaOpts) :
    parse_arg .OPT_UTIL_AVG a o =
      .ok { o with util_avg_cpu := true, util_avg_task := true, util_avg_rt := true,
                   util_avg_dl := true, util_avg_irq := true, util_avg_thermal := true } :=
  rfl

/-- Claim C4: any `--max_size` argument whose text strtol-parses to a
value `v` with at least one digit consumed and no range error is stored
as `v * 1024` (KiB converted to bytes). -/
theorem max_size_kib_to_bytes (s : String) (o : SaOpts)
    (hd : (strtol0 s.toList).digits = true) (he : (strtol0 s.toList).errno = 0) :
    parse_arg .OPT_MAX_SIZE s o =
      .ok { o with max_size := (strtol0 s.toList).value * 1024 } :=
  max_size_ok_aux s o hd he

/-- Witness for C4: `--max_size 1024` yields a stored size of
`1024 * 1024` bytes. -/
theorem max_size_kib_to_bytes_witness :
    (strtol0 "1024".toList).digits = true ∧ (strtol0 "1024".toList).errno = 0 ∧
    parse_arg .OPT_MAX_SIZE "1024" sa_opts = .ok { sa_opts with max_size := 1024 * 1024 } := by
  refine ⟨by decide, by decide, ?_⟩
  have h := max_size_kib_to_bytes "1024" sa_opts (by decide) (by decide)
  have hv : (strtol0 "1024".toList).value = 1024 := by decide
  rw [h, hv]

/-- Counterexample to C5: with `--max_size abc` (and `--pid xyz`) the
parse does fail with the usage-error class, but the emitted message does
not contain the offending literal text, so the failure does not report
"which literal offending text caused the failure" as the claim states. -/
theorem nodigits_error_omits_literal_text :
    parse_arg .OPT_MAX_SIZE "abc" sa_opts =
      .usage "max_size: no digits were found\n" { sa_opts with max_size := 0 } ∧
    occursIn "abc".toList (parse_arg .OPT_MAX_SIZE "abc" sa_opts).msg.toList = false ∧
    parse_arg .OPT_FILTER_PID "xyz" sa_opts =
      .usage "pid: no digits were found\n" { sa_opts with pid := 0 } ∧
    occursIn "xyz".toList (parse_arg .OPT_FILTER_PID "xyz" sa_opts).msg.toList = false := by
  decide

/-- Claim C5 as amended: an argument to `--max_size` or `--pid` from which
no digits can be consumed produces a usage failure (a class distinct from
the `errno`-returning out-of-range failure), whose message names the
option — `max_size` or `pid` — but not the offending literal text. -/
theorem nodigits_usage_error_names_option (s : String) (o : SaOpts)
    (hd : (strtol0 s.toList).digits = false) :
    parse_arg .OPT_MAX_SIZE s o =
      .usage "max_size: no digits were found\n" { o with max_size := 0 } ∧
    parse_arg .OPT_FILTER_PID s o =
      .usage "pid: no digits were found\n" { o with pid := 0 } ∧
    occursIn "max_size".toList "max_size: no digits were found\n".toList = true ∧
    occursIn "pid".toList "pid: no digits were found\n".toList = true :=
  ⟨max_size_nodigits_aux s o hd, pid_nodigits_aux s o hd, by decide, by decide⟩

/-- Witness for C5 (amended): instantiated at the argument "abc". -/
theorem nodigits_usage_error_names_option_witness :
    (strtol0 "abc".toList).digits = false ∧
    (parse_arg .OPT_MAX_SIZE "abc" sa_opts =
        .usage "max_size: no digits were found\n" { sa_opts with max_size := 0 } ∧
      parse_arg .OPT_FILTER_PID "abc" sa_opts =
        .usage "pid: no digits were found\n" { sa_opts with pid := 0 } ∧
      occursIn "max_size".toList "max_size: no digits were found\n".toList = true ∧
      occursIn "pid".toList "pid: no digits were found\n".toList = true) :=
  ⟨by decide, nodigits_usage_error_names_option "abc" sa_opts (by decide)⟩

/-- Counterexample to C6: on `--max_size abc` the parse does abort, but
the configuration under construction is not unchanged — `max_size` has
already been overwritten with strtol's 0 return (times 1024) when the
failure is raised, so a field is partially mutated. -/
theorem failed_token_mutates_config :
    parseSeq [(.OPT_MAX_SIZE, "abc"), (.OPT_APP, "")] sa_opts =
      .usage "max_size: no digits were found\n" { sa_opts with max_size := 0 } ∧
    (parseSeq [(.OPT_MAX_SIZE, "abc"), (.OPT_APP, "")] sa_opts).opts.max_size ≠
      sa_opts.max_size := by
  decide

/-- Claim C6 as amended: a failing token aborts the whole parse — the
remaining tokens are not processed and no `ok` configuration is produced
for downstream stages — but the configuration under construction may
already be mutated by the failing token: a `--max_size` argument with no
consumable digits stores `0` into `max_size` before the abort. -/
theorem error_aborts_parse_but_mutates (rest : List (SaKey × String)) (o : SaOpts)
    (s : String) (hd : (strtol0 s.toList).digits = false) :
    parseSeq ((.OPT_MAX_SIZE, s) :: rest) o =
      .usage "max_size: no digits were found\n" { o with max_size := 0 } := by
  have h := max_size_nodigits_aux s o hd
  simp only [parseSeq]
  rw [h]

/-- Witness for C6 (amended): `--max_size abc --app` aborts at the first
token with the mutated configuration; the trailing `--app` is ignored. -/
theorem error_aborts_parse_but_mutates_witness :
    (strtol0 "abc".toList).digits = false ∧
    parseSeq [(.OPT_MAX_SIZE, "abc"), (.OPT_APP, "")] sa_opts =
      .usage "max_size: no digits were found\n" { sa_opts with max_size := 0 } :=
  ⟨by decide, error_aborts_parse_but_mutates [(.OPT_APP, "")] sa_opts "abc" (by decide)⟩

/-- Counterexample to C7: `--max_size -1` is not rejected — the parse
succeeds and returns a configuration whose stored size is the negative
value `-1024`. -/
theorem negative_max_size_accepted :
    parseSeq [(.OPT_MAX_SIZE, "-1")] sa_opts = .ok { sa_opts with max_size := -1024 } ∧
    ({ sa_opts with max_size := -1024 } : SaOpts).max_size < 0 := by
  decide

/-- Claim C7 as amended: a `--max_size` argument that parses to a negative
value is accepted without any validation failure; the stored size is the
negative value times 1024, so a successfully returned configuration can
carry a negative `max_size`. -/
theorem negative_max_size_stored_scaled (s : String) (o : SaOpts)
    (hd : (strtol0 s.toList).digits = true) (he : (strtol0 s.toList).errno = 0)
    (hn : (strtol0 s.toList).value < 0) :
    parse_arg .OPT_MAX_SIZE s o =
      .ok { o with max_size := (strtol0 s.toList).value * 1024 } ∧
    (strtol0 s.toList).value * 1024 < 0 :=
  ⟨max_size_ok_aux s o hd he, mul_neg_of_neg_of_pos hn (by norm_num)⟩

/-- Witness for C7 (amended): instantiated at the argument "-1". -/
theorem negative_max_size_stored_scaled_witness :
    ((strtol0 "-1".toList).digits = true ∧ (strtol0 "-1".toList).errno = 0 ∧
      (strtol0 "-1".toList).value < 0) ∧
    (parse_arg .OPT_MAX_SIZE "-1" sa_opts =
        .ok { sa_opts with max_size := (strtol0 "-1".toList).value * 1024 } ∧
      (strtol0 "-1".toList).value * 1024 < 0) :=
  ⟨⟨by decide, by decide, by decide⟩,
   negative_max_size_stored_scaled "-1" sa_opts (by decide) (by decide) (by decide)⟩

/-- Claim C8: from any prior configuration, `--runnable_avg` sets
`load_avg_cpu` and `runnable_avg_task` (the asymmetric pair, exactly as
the source does) and leaves every other field — `runnable_avg_cpu`
included — unchanged. -/
theorem runnable_avg_umbrella_asymmetric (a : String) (o : SaOpts) :
    parse_arg .OPT_RUNNABLE_AVG a o =
      .ok { o with load_avg_cpu := true, runnable_avg_task := true } ∧
    (parse_arg .OPT_RUNNABLE_AVG a o).opts.runnable_avg_cpu = o.runnable_avg_cpu :=
  ⟨rfl, rfl⟩

/-- Claim C9: processing `--comm` always succeeds; the stored buffer is
the argument truncated to the first `TASK_COMM_LEN - 1` characters (padded
with NULs when shorter, per `strncpy`), the buffer stays exactly
`TASK_COMM_LEN` characters long, and its final character is always NUL,
so the stored string is null-terminated. -/
theorem comm_truncated_null_terminated (s : String) (o : SaOpts)
    (h : o.comm.length = TASK_COMM_LEN) :
    parse_arg .OPT_FILTER_COMM s o =
      .ok { o with comm := s.toList.take (TASK_COMM_LEN - 1) ++
        List.replicate ((TASK_COMM_LEN - 1) - s.toList.length) (Char.ofNat 0) ++
        [Char.ofNat 0] } ∧
    (s.toList.take (TASK_COMM_LEN - 1) ++
      List.replicate ((TASK_COMM_LEN - 1) - s.toList.length) (Char.ofNat 0) ++
      [Char.ofNat 0]).length = TASK_COMM_LEN ∧
    (s.toList.take (TASK_COMM_LEN - 1) ++
      List.replicate ((TASK_COMM_LEN - 1) - s.toList.length) (Char.ofNat 0) ++
      [Char.ofNat 0]).getLast? = some (Char.ofNat 0) := by
  have hfront : (s.toList.take (TASK_COMM_LEN - 1) ++
      List.replicate ((TASK_COMM_LEN - 1) - s.toList.length) (Char.ofNat 0)).length
      = TASK_COMM_LEN - 1 := by
    simp only [List.length_append, List.length_take, List.length_replicate, TASK_COMM_LEN]
    omega
  have hlen : (o.comm.drop (TASK_COMM_LEN - 1)).length = 1 := by
    simp only [List.length_drop, h, TASK_COMM_LEN]
  obtain ⟨x, hx⟩ := List.length_eq_one.mp hlen
  have hlist : (strncpyL o.comm s.toList (TASK_COMM_LEN - 1)).set
      (TASK_COMM_LEN - 1) (Char.ofNat 0)
      = s.toList.take (TASK_COMM_LEN - 1) ++
        List.replicate ((TASK_COMM_LEN - 1) - s.toList.length) (Char.ofNat 0) ++
        [Char.ofNat 0] := by
    unfold strncpyL
    rw [hx, set_append_length_of_eq _ _ _ _ hfront.symm]
    rfl
  refine ⟨?_, ?_, List.getLast?_concat _⟩
  · show ParseOutcome.ok
      { o with comm := ((strncpyL o.comm s.toList (TASK_COMM_LEN - 1)).set (TASK_COMM_LEN - 1) (Char.ofNat 0)) } = _
    rw [hlist]
  · rw [List.length_append, hfront]
    rfl

/-- Witness for C9: a 26-character `--comm` argument against the default
configuration is truncated to 15 characters plus the terminating NUL. -/
theorem comm_truncated_null_terminated_witness :
    sa_opts.comm.length = TASK_COMM_LEN ∧
    (parse_arg .OPT_FILTER_COMM "a_very_long_comm_name_here" sa_opts =
        .ok { sa_opts with
          comm := "a_very_long_comm_name_here".toList.take (TASK_COMM_LEN - 1) ++
            List.replicate
              ((TASK_COMM_LEN - 1) - "a_very_long_comm_name_here".toList.length)
              (Char.ofNat 0) ++ [Char.ofNat 0] } ∧
      ("a_very_long_comm_name_here".toList.take (TASK_COMM_LEN - 1) ++
        List.replicate
          ((TASK_COMM_LEN - 1) - "a_very_long_comm_name_here".toList.length)
          (Char.ofNat 0) ++ [Char.ofNat 0]).length = TASK_COMM_LEN ∧
      ("a_very_long_comm_name_here".toList.take (TASK_COMM_LEN - 1) ++
        List.replicate
          ((TASK_COMM_LEN - 1) - "a_very_long_comm_name_here".toList.length)
          (Char.ofNat 0) ++ [Char.ofNat 0]).getLast? = some (Char.ofNat 0)) :=
  ⟨by decide, comm_truncated_null_terminated "a_very_long_comm_name_here" sa_opts (by decide)⟩

/-- Claim C10: event toggles are monotone under parsing — no mutation rule
sets any of the fourteen settable event-toggle fields from true to false,
so a toggle enabled at any point stays enabled through any further
successfully processed tokens. -/
theorem event_toggles_monotone (toks : List (SaKey × String)) (o o' : SaOpts)
    (h : parseSeq toks o = .ok o') : togglesLe o o' :=
  parseSeq_toggles_aux toks o o' h

/-- Witness for C10: starting with `load_balance` already enabled,
processing `--util_est` keeps it enabled (and turns the two estimate
toggles on). -/
theorem event_toggles_monotone_witness :
    parseSeq [(.OPT_UTIL_EST, "")] { sa_opts with load_balance := true } =
      .ok { sa_opts with load_balance := true, util_est_cpu := true, util_est_task := true } ∧
    togglesLe { sa_opts with load_balance := true }
      { sa_opts with load_balance := true, util_est_cpu := true, util_est_task := true } :=
  ⟨by decide,
   event_toggles_monotone [(.OPT_UTIL_EST, "")] { sa_opts with load_balance := true }
     { sa_opts with load_balance := true, util_est_cpu := true, util_est_task := true }
     (by decide)⟩
